import Mathlib

/-!
Verification of the data-preparation pipeline of `ipl_dashboard.py`.

The pipeline consists of `preprocess_deliveries` (the Enricher),
`merge_matches_deliveries` (the Joiner) and `compute_figs_and_tables`
(the Aggregator).  We shallowly embed pandas DataFrames as a list of
column names together with a list of rows, where a row is a total
function from column names to cell values (only the names listed in
`cols` are meaningful).  Fallible operations (pandas raising
`AttributeError`, `KeyError` or `ValueError`) are modelled with
`Except String`.

Modelling conventions, stated once here:
* Cell values are null (pandas NaN/None), integers or strings; the
  source data has no semantically relevant floats.
* `pd.to_numeric(errors=coerce).fillna(0)` maps null to 0, keeps
  integers, parses integer-literal strings, and sends unparsable
  strings to 0 (NaN filled with 0).
* `Series.fillna(0).astype(int)` maps null to 0, keeps integers,
  parses integer-literal strings and raises on other strings, as
  `astype(int)` does on an object column.
* `Series.sum()` skips nulls; a string cell makes the surrounding
  `int(...)`/aggregation fail, modelled as an error.
* pandas `sort_values` uses an unstable quicksort, so the order of
  ties is unspecified; we use a stable insertion sort.  Every theorem
  below about sorted/truncated aggregates is membership-based and
  therefore independent of the tie order.
* Plotly figure construction is omitted: it does not affect the
  returned tables map.
-/

inductive Val where
  | vnull : Val
  | vint : Int → Val
  | vstr : String → Val
deriving DecidableEq, Repr

/-- A row of a DataFrame: a total map from column names to cell values.
Only the names appearing in the frame's `cols` list are meaningful. -/
def Row : Type := String → Val

/-- A pandas DataFrame: ordered column names plus rows. -/
structure DataFrame where
  cols : List String
  rows : List Row

/-- Append a column name unless it is already present
(pandas column assignment `d[c] = ...`). -/
def addColName (cols : List String) (c : String) : List String :=
  if cols.contains c then cols else cols ++ [c]

/-- Column assignment `d[c] = f(row)` where the new cell of each row is
computed from that row's current cells. -/
def setColWith (df : DataFrame) (c : String) (f : Row → Val) : DataFrame :=
  { cols := addColName df.cols c,
    rows := df.rows.map (fun r => Function.update r c (f r)) }

/-- Recover the payload of a successful `Except`, with a default. -/
def okD {α : Type} (e : Except String α) (dflt : α) : α :=
  match e with
  | .ok v => v
  | .error _ => dflt

/-- Did the computation succeed (no exception raised)? -/
def isOkE {α : Type} (e : Except String α) : Bool :=
  match e with
  | .ok _ => true
  | .error _ => false

/-- The raised exception message, if any. -/
def errMsg {α : Type} (e : Except String α) : Option String :=
  match e with
  | .ok _ => none
  | .error m => some m

/-- Fallible column assignment: pandas computes the whole new column
first (e.g. `astype(int)`), raising if any cell fails to convert, and
only then assigns it.  We model the raised message uniformly. -/
def setColWithE (df : DataFrame) (c : String) (f : Row → Except String Val) :
    Except String DataFrame :=
  if df.rows.all (fun r => isOkE (f r)) then
    .ok { cols := addColName df.cols c,
          rows := df.rows.map (fun r => Function.update r c (okD (f r) Val.vnull)) }
  else
    .error "ValueError: invalid literal for int()"

/-- Keep only the rows satisfying a boolean mask
(`df[df[c] == v]` style filtering). -/
def filterRows (df : DataFrame) (p : Row → Bool) : DataFrame :=
  { cols := df.cols, rows := df.rows.filter p }

/-- The values of one column, in row order (`df[c]`). -/
def colVals (df : DataFrame) (c : String) : List Val :=
  df.rows.map (fun r => r c)

/-- Drop null entries, as pandas `dropna`/`value_counts`/`nunique` do. -/
def nonNull (vs : List Val) : List Val :=
  vs.filter (fun v => v != Val.vnull)

/-- Distinct values in order of first appearance. -/
def dedupF {α : Type} [DecidableEq α] : List α → List α
  | [] => []
  | x :: xs => x :: (dedupF xs).filter (fun y => y ≠ x)

/-- `Series.nunique()`: number of distinct non-null values. -/
def nuniqueCol (df : DataFrame) (c : String) : Nat :=
  (dedupF (nonNull (colVals df c))).length

/-- Stable insertion into a list sorted by the boolean relation `le`:
`x` is placed before the first element `y` with `le x y`. -/
def insSorted {α : Type} (le : α → α → Bool) (x : α) : List α → List α
  | [] => [x]
  | y :: ys => if le x y then x :: y :: ys else y :: insSorted le x ys

/-- Stable insertion sort by the boolean relation `le`. -/
def sortByB {α : Type} (le : α → α → Bool) : List α → List α
  | [] => []
  | x :: xs => insSorted le x (sortByB le xs)

/-- Total order used for pandas `groupby(sort=True)` key ordering.
(pandas would refuse to compare mixed types; the claims proved below
are membership-based and do not depend on this order.) -/
def valLeB : Val → Val → Bool
  | .vnull, _ => true
  | _, .vnull => false
  | .vint m, .vint n => decide (m ≤ n)
  | .vint _, .vstr _ => true
  | .vstr _, .vint _ => false
  | .vstr s, .vstr t => decide (s ≤ t)

/-- The group keys of `df.groupby(c)`: distinct non-null values of the
column, sorted ascending (pandas `groupby` default `sort=True`). -/
def groupKeys (df : DataFrame) (c : String) : List Val :=
  sortByB valLeB (dedupF (nonNull (colVals df c)))

/-- `Series.sum()` over cell values: nulls are skipped, a string cell
makes the surrounding integer aggregation fail. -/
def sumVals : List Val → Except String Int
  | [] => .ok 0
  | v :: vs =>
    match sumVals vs with
    | .error e => .error e
    | .ok s =>
      match v with
      | .vnull => .ok s
      | .vint n => .ok (n + s)
      | .vstr _ => .error "ValueError: non-numeric cell in sum"

/-- `str(x)` applied to a cell, as in `astype(str)` comparisons. -/
def valToStr : Val → String
  | .vnull => "nan"
  | .vint n => toString n
  | .vstr s => s

/-! ## The Enricher: `preprocess_deliveries` (lines 96-129) -/

/-- `pd.to_numeric(col, errors=coerce).fillna(0).astype(int)` on a cell. -/
def toNumericFill0 : Val → Val
  | .vnull => .vint 0
  | .vint n => .vint n
  | .vstr s => .vint ((s.toInt?).getD 0)

/-- `col.fillna(0).astype(int)` on a cell: `astype(int)` raises on a
string that is not an integer literal. -/
def fillna0AstypeInt : Val → Except String Val
  | .vnull => .ok (.vint 0)
  | .vint n => .ok (.vint n)
  | .vstr s =>
    match s.toInt? with
    | some n => .ok (.vint n)
    | none => .error "ValueError: invalid literal for int()"

/-- Lines 104-107: coerce `batsman_runs` / `extra_runs` to int when the
column is present. -/
def coerceNumericStep (df : DataFrame) (c : String) : DataFrame :=
  if df.cols.contains c then setColWith df c (fun r => toNumericFill0 (r c)) else df

/-- Addition of two cells (both are integers at every use site). -/
def addVal : Val → Val → Val
  | .vint m, .vint n => .vint (m + n)
  | _, _ => .vnull

/-- Lines 110-115: keep an existing `total_runs` column, else derive it
as `d.get(batsman_runs, 0) + d.get(extra_runs, 0)`, else constant 0. -/
def totalRunsStep (df : DataFrame) : DataFrame :=
  if df.cols.contains "total_runs" then df
  else if df.cols.contains "batsman_runs" then
    setColWith df "total_runs" (fun r =>
      addVal (r "batsman_runs")
        (if df.cols.contains "extra_runs" then r "extra_runs" else Val.vint 0))
  else
    setColWith df "total_runs" (fun _ => Val.vint 0)

/-- Lines 117-118: `d[c] = d.get(c, 0).fillna(0).astype(int)`.
When the column is absent, `d.get(c, 0)` is the plain int 0 and the
chained `.fillna` raises `AttributeError`. -/
def extrasStep (df : DataFrame) (c : String) : Except String DataFrame :=
  if df.cols.contains c then setColWithE df c (fun r => fillna0AstypeInt (r c))
  else .error "AttributeError: int object has no attribute fillna"

/-- The per-row value of line 121:
`(wide_runs == 0) & (noball_runs == 0)` as an int. -/
def legalCell (r : Row) : Val :=
  Val.vint (if r "wide_runs" == Val.vint 0 && r "noball_runs" == Val.vint 0 then 1 else 0)

/-- Line 121: `legal_delivery = ((wide_runs == 0) & (noball_runs == 0)).astype(int)`. -/
def legalStep (df : DataFrame) : DataFrame :=
  setColWith df "legal_delivery" legalCell

/-- The per-row value of line 125: `player_dismissed.notna()` as an int. -/
def wicketCell (r : Row) : Val :=
  Val.vint (if r "player_dismissed" != Val.vnull then 1 else 0)

/-- Lines 124-127: `is_wicket` flags a non-null `player_dismissed`,
or is constantly 0 when that column is absent. -/
def isWicketStep (df : DataFrame) : DataFrame :=
  if df.cols.contains "player_dismissed" then
    setColWith df "is_wicket" wicketCell
  else
    setColWith df "is_wicket" (fun _ => Val.vint 0)

/-- `preprocess_deliveries` (lines 96-129).  Works on a copy of its
argument (copying is the identity in this pure embedding). -/
def preprocess_deliveries (deliveries : DataFrame) : Except String DataFrame :=
  let d := coerceNumericStep deliveries "batsman_runs"
  let d := coerceNumericStep d "extra_runs"
  let d := totalRunsStep d
  match extrasStep d "wide_runs" with
  | .error e => .error e
  | .ok d =>
    match extrasStep d "noball_runs" with
    | .error e => .error e
    | .ok d => .ok (isWicketStep (legalStep d))

/-! ## The Joiner: `merge_matches_deliveries` (lines 132-142) -/

/-- `merge_matches_deliveries` (lines 132-142): left join of deliveries
onto the projection of `matches` to
`[match_id, season, winner, venue, team1, team2]` when both tables have
`match_id`, else an unmodified copy of the deliveries.
(When a projected match column other than the key already exists on the
delivery side, pandas keeps both under `_x`/`_y` suffixes; the model
keeps the delivery-side value under the plain name.  The claims proved
about the join concern only its row count and the no-key fallback,
which this simplification does not affect.) -/
def merge_matches_deliveries (matchesDf deliveries : DataFrame) : DataFrame :=
  if deliveries.cols.contains "match_id" && matchesDf.cols.contains "match_id" then
    let mcols := ["match_id", "season", "winner", "venue", "team1", "team2"].filter
      (fun c => matchesDf.cols.contains c)
    let addCols := mcols.filter
      (fun c => c != "match_id" && !(deliveries.cols.contains c))
    { cols := deliveries.cols ++ addCols,
      rows := deliveries.rows.flatMap (fun dr =>
        match matchesDf.rows.filter (fun mr => mr "match_id" == dr "match_id") with
        | [] => [fun c => if addCols.contains c then Val.vnull else dr c]
        | m :: ms => (m :: ms).map (fun mr =>
            fun c => if addCols.contains c then mr c else dr c)) }
  else
    deliveries

/-! ## The Aggregator: `compute_figs_and_tables` (lines 145-235) -/

/-- The `kpis` table (lines 156-163), stored as metric/value pairs in
the code; modelled as its three values. -/
structure Kpis where
  total_matches : Nat
  total_runs : Int
  total_wickets : Int
deriving DecidableEq, Repr

/-- One row of the `top_batsmen` table (lines 166-173). -/
structure BatsmanRow where
  batsman : Val
  runs : Int
  balls : Int
  strike_rate : ℚ
deriving DecidableEq, Repr

/-- One row of the `top_bowlers` table (lines 180-189). -/
structure BowlerRow where
  bowler : Val
  runs_conceded : Int
  legal_balls : Int
  wickets : Int
  overs : ℚ
  economy : Option ℚ
deriving DecidableEq, Repr

/-- The returned `tables` map.  `kpis` is assigned unconditionally at
the top of the function; every other aggregate is optional. -/
structure Tables where
  kpis : Kpis
  top_batsmen : Option (List BatsmanRow)
  top_bowlers : Option (List BowlerRow)
  wins_by_season : Option (List ((Val × Val) × Nat))
  team_wins : Option (List (Val × Nat))
  top_venues : Option (List (Val × Nat))
  team_venue_wins : Option (List (Val × Nat))
  head_to_head : Option (List ((Val × Val) × Nat))
deriving DecidableEq, Repr

/-- An `Except`-valued `List.map` with explicit recursion, failing on
the first failure. -/
def mapME {α β : Type} (f : α → Except String β) : List α → Except String (List β)
  | [] => .ok []
  | a :: as =>
    match f a with
    | .error e => .error e
    | .ok b =>
      match mapME f as with
      | .error e => .error e
      | .ok bs => .ok (b :: bs)

/-- `col.sum()` when the column exists, else the literal 0 of lines
157-158. -/
def sumColOr0 (df : DataFrame) (c : String) : Except String Int :=
  if df.cols.contains c then sumVals (colVals df c) else .ok 0

/-- Lines 156-163: the KPI block.  `total_matches` falls back to the
match-table row count without a `match_id` column; the two sums fall
back to 0 without their column. -/
def kpisTable (merged matchesDf : DataFrame) : Except String Kpis :=
  match sumColOr0 merged "total_runs" with
  | .error e => .error e
  | .ok tr =>
    match sumColOr0 merged "is_wicket" with
    | .error e => .error e
    | .ok tw =>
      .ok ⟨(if matchesDf.cols.contains "match_id" then nuniqueCol matchesDf "match_id"
            else matchesDf.rows.length), tr, tw⟩

/-- One group of the `groupby('batsman').agg(...)` of lines 167-171:
sums over the group's rows, and the strike-rate of line 171. -/
def batsmanRowOf (merged : DataFrame) (runsCol : String) (k : Val) :
    Except String BatsmanRow :=
  match sumVals ((merged.rows.filter (fun r => r "batsman" == k)).map
          (fun r => r runsCol)),
        sumVals ((merged.rows.filter (fun r => r "batsman" == k)).map
          (fun r => r "legal_delivery")) with
  | .ok runs, .ok balls =>
    .ok { batsman := k, runs := runs, balls := balls,
          strike_rate := if 0 < balls then (runs : ℚ) / (balls : ℚ) * 100 else 0 }
  | .error e, _ => .error e
  | _, .error e => .error e

/-- Lines 166-173: the `top_batsmen` aggregate.  The guard checks only
`batsman`; `agg` then raises `KeyError` if the chosen runs column or
`legal_delivery` is absent. -/
def topBatsmenTable (merged : DataFrame) : Except String (Option (List BatsmanRow)) :=
  if merged.cols.contains "batsman" then
    let runsCol := if merged.cols.contains "batsman_runs" then "batsman_runs" else "total_runs"
    if merged.cols.contains runsCol then
      if merged.cols.contains "legal_delivery" then
        match mapME (batsmanRowOf merged runsCol) (groupKeys merged "batsman") with
        | .error e => .error e
        | .ok l =>
          .ok (some ((sortByB (fun a b => decide (b.runs ≤ a.runs)) l).take 15))
      else .error "KeyError: legal_delivery"
    else .error "KeyError: aggregation column"
  else .ok none

/-- One group of the `groupby('bowler').agg(...)` of lines 181-185,
with the `overs` and `economy` columns of lines 186-187.  `economy` is
NaN (modelled `none`) unless `overs > 0`. -/
def bowlerRowOf (merged : DataFrame) (k : Val) : Except String BowlerRow :=
  match sumVals ((merged.rows.filter (fun r => r "bowler" == k)).map
          (fun r => r "total_runs")),
        sumVals ((merged.rows.filter (fun r => r "bowler" == k)).map
          (fun r => r "legal_delivery")),
        sumVals ((merged.rows.filter (fun r => r "bowler" == k)).map
          (fun r => r "is_wicket")) with
  | .ok rc, .ok lb, .ok wk =>
    .ok { bowler := k, runs_conceded := rc, legal_balls := lb, wickets := wk,
          overs := (lb : ℚ) / 6,
          economy := if 0 < (lb : ℚ) / 6 then some ((rc : ℚ) / ((lb : ℚ) / 6)) else none }
  | .error e, _, _ => .error e
  | _, .error e, _ => .error e
  | _, _, .error e => .error e

/-- Lines 180-189: the `top_bowlers` aggregate.  The guard checks only
`bowler`; `agg` then raises `KeyError` if `total_runs`,
`legal_delivery` or `is_wicket` is absent. -/
def topBowlersTable (merged : DataFrame) : Except String (Option (List BowlerRow)) :=
  if merged.cols.contains "bowler" then
    if merged.cols.contains "total_runs" then
      if merged.cols.contains "legal_delivery" then
        if merged.cols.contains "is_wicket" then
          match mapME (bowlerRowOf merged) (groupKeys merged "bowler") with
          | .error e => .error e
          | .ok l =>
            .ok (some ((sortByB (fun a b => decide (b.wickets ≤ a.wickets)) l).take 15))
        else .error "KeyError: is_wicket"
      else .error "KeyError: legal_delivery"
    else .error "KeyError: total_runs"
  else .ok none

/-- Line 202: `groupby('season')['winner'].value_counts()`, kept as
(season, winner) pair counts (the `unstack(fill_value=0)` presentation
of these counts is not modelled; no claim inspects this table). -/
def winsBySeason (mf : DataFrame) : List ((Val × Val) × Nat) :=
  (groupKeys mf "season").flatMap (fun s =>
    let grp := mf.rows.filter (fun r => r "season" == s)
    (dedupF (nonNull (grp.map (fun r => r "winner")))).map (fun w =>
      ((s, w), (grp.filter (fun r => r "winner" == w)).length)))

/-- Line 205: wins of the selected team per season,
`groupby('season')['match_id'].count()` — `count` counts non-null
`match_id` cells per group. -/
def teamWinsList (tw : DataFrame) : List (Val × Nat) :=
  (groupKeys tw "season").map (fun s =>
    (s, ((tw.rows.filter (fun r => r "season" == s)).filter
          (fun r => r "match_id" != Val.vnull)).length))

/-- Lines 196-209: the team-winning-trends block.  Guarded on `winner`
and `season`; the team branch reads `match_id` unguarded (line 205) and
so raises `KeyError` when that column is absent. -/
def winsTables (matchesDf : DataFrame) (selected_team selected_season : String) :
    Except String (Option (List ((Val × Val) × Nat)) × Option (List (Val × Nat))) :=
  if matchesDf.cols.contains "winner" && matchesDf.cols.contains "season" then
    let mf := if selected_season ≠ "All Seasons"
      then filterRows matchesDf (fun r => valToStr (r "season") == selected_season)
      else matchesDf
    if selected_team = "All Teams" then
      .ok (some (winsBySeason mf), none)
    else
      if mf.cols.contains "match_id" then
        .ok (none, some (teamWinsList
          (filterRows mf (fun r => r "winner" == Val.vstr selected_team))))
      else .error "KeyError: match_id"
  else .ok (none, none)

/-- `Series.value_counts().head(n)`: counts of distinct non-null
values, sorted descending by count (ties in first-appearance order),
truncated to `n`. -/
def valueCountsHead (df : DataFrame) (c : String) (n : Nat) : List (Val × Nat) :=
  let vals := nonNull (colVals df c)
  (sortByB (fun a b => decide (b.2 ≤ a.2))
    ((dedupF vals).map (fun v => (v, (vals.filter (fun x => x == v)).length)))).take n

/-- Lines 212-227: the stadium-trends block.  With no team filter the
venue counts are taken over the full `matches` table (line 214 — the
season filter is not applied on this branch).  With a team selected,
`winner` (line 220) and, when a season is selected, `season` (line 222)
are read unguarded and raise `KeyError` when absent. -/
def venueTables (matchesDf : DataFrame) (selected_team selected_season : String) :
    Except String (Option (List (Val × Nat)) × Option (List (Val × Nat))) :=
  if matchesDf.cols.contains "venue" then
    if selected_team = "All Teams" then
      .ok (some (valueCountsHead matchesDf "venue" 10), none)
    else
      if matchesDf.cols.contains "winner" then
        let twm := filterRows matchesDf (fun r => r "winner" == Val.vstr selected_team)
        if selected_season ≠ "All Seasons" then
          if twm.cols.contains "season" then
            .ok (none, some (valueCountsHead
              (filterRows twm (fun r => valToStr (r "season") == selected_season))
              "venue" 10))
          else .error "KeyError: season"
        else .ok (none, some (valueCountsHead twm "venue" 10))
      else .error "KeyError: winner"
  else .ok (none, none)

/-- Lines 230-233: the head-to-head matrix, kept as (winner, team2)
pair counts over the rows with all of winner/team1/team2 non-null. -/
def headToHeadTable (matchesDf : DataFrame) : Option (List ((Val × Val) × Nat)) :=
  if matchesDf.cols.contains "team1" && matchesDf.cols.contains "team2"
     && matchesDf.cols.contains "winner" then
    let pairs := filterRows matchesDf (fun r =>
      r "winner" != Val.vnull && r "team1" != Val.vnull && r "team2" != Val.vnull)
    some ((groupKeys pairs "winner").flatMap (fun w =>
      let grp := pairs.rows.filter (fun r => r "winner" == w)
      (dedupF (nonNull (grp.map (fun r => r "team2")))).map (fun t =>
        ((w, t), (grp.filter (fun r => r "team2" == t)).length))))
  else none

/-- `compute_figs_and_tables` (lines 145-235), restricted to the
`tables` component of its result.  The blocks run in source order, so
the first raising block determines the exception. -/
def compute_figs_and_tables (merged matchesDf : DataFrame)
    (selected_team selected_season : String) : Except String Tables :=
  match kpisTable merged matchesDf with
  | .error e => .error e
  | .ok k =>
    match topBatsmenTable merged with
    | .error e => .error e
    | .ok tb =>
      match topBowlersTable merged with
      | .error e => .error e
      | .ok tw =>
        match winsTables matchesDf selected_team selected_season with
        | .error e => .error e
        | .ok (wbs, twins) =>
          match venueTables matchesDf selected_team selected_season with
          | .error e => .error e
          | .ok (tv, tvw) =>
            .ok { kpis := k, top_batsmen := tb, top_bowlers := tw,
                  wins_by_season := wbs, team_wins := twins,
                  top_venues := tv, team_venue_wins := tvw,
                  head_to_head := headToHeadTable matchesDf }

/-! ## Concrete instances used by witnesses and counterexamples -/

/-- Build a row from an association list (absent names are null). -/
def rowOf (l : List (String × Val)) : Row :=
  fun c => ((l.find? (fun p => p.1 == c)).map Prod.snd).getD Val.vnull

/-- A table with no columns and no rows. -/
def emptyDf : DataFrame := { cols := [], rows := [] }

/-- The default for `okD` over `Tables`. -/
def emptyTables : Tables :=
  { kpis := ⟨0, 0, 0⟩, top_batsmen := none, top_bowlers := none,
    wins_by_season := none, team_wins := none, top_venues := none,
    team_venue_wins := none, head_to_head := none }

/-- A delivery table with numeric run columns but no `wide_runs` and no
`noball_runs` column. -/
def delivNoWide : DataFrame :=
  { cols := ["batsman_runs", "extra_runs"],
    rows := [rowOf [("batsman_runs", Val.vint 4), ("extra_runs", Val.vint 1)]] }

/-- A delivery table with `wide_runs` present but `noball_runs` absent. -/
def delivNoNoball : DataFrame :=
  { cols := ["batsman_runs", "wide_runs"],
    rows := [rowOf [("batsman_runs", Val.vint 4), ("wide_runs", Val.vint 0)]] }

/-- A match table having `winner` and `season` but no `match_id`. -/
def matchesNoId : DataFrame :=
  { cols := ["winner", "season"],
    rows := [rowOf [("winner", Val.vstr "Mumbai Indians"), ("season", Val.vint 2020)]] }

/-- A match table with venues spread over two seasons. -/
def matchesTwoSeasons : DataFrame :=
  { cols := ["venue", "season"],
    rows := [rowOf [("venue", Val.vstr "Wankhede"), ("season", Val.vint 2020)],
             rowOf [("venue", Val.vstr "Eden Gardens"), ("season", Val.vint 2019)]] }

/-- A one-delivery table whose only dismissal is a run out. -/
def delivRunOut : DataFrame :=
  { cols := ["match_id", "batsman", "bowler", "batsman_runs", "extra_runs",
             "wide_runs", "noball_runs", "player_dismissed", "dismissal_kind"],
    rows := [rowOf [("match_id", Val.vint 1), ("batsman", Val.vstr "A"),
                    ("bowler", Val.vstr "x"), ("batsman_runs", Val.vint 4),
                    ("extra_runs", Val.vint 0), ("wide_runs", Val.vint 0),
                    ("noball_runs", Val.vint 0), ("player_dismissed", Val.vstr "A"),
                    ("dismissal_kind", Val.vstr "run out")]] }

/-- A one-match table matching `delivRunOut`. -/
def matchesOne : DataFrame :=
  { cols := ["match_id", "season", "winner", "venue", "team1", "team2"],
    rows := [rowOf [("match_id", Val.vint 1), ("season", Val.vint 2020),
                    ("winner", Val.vstr "Mumbai Indians"), ("venue", Val.vstr "Wankhede"),
                    ("team1", Val.vstr "Mumbai Indians"),
                    ("team2", Val.vstr "Royal Challengers Bangalore")]] }

/-! ## Infrastructure lemmas -/

theorem contains_true_iff (l : List String) (x : String) :
    l.contains x = true ↔ x ∈ l := by
  simp [List.elem_eq_mem, List.contains]

theorem okD_spec {α : Type} (e : Except String α) (d : α) (h : isOkE e = true) :
    e = .ok (okD e d) := by
  cases e with
  | ok v => rfl
  | error m => simp [isOkE] at h

theorem mem_insSorted {α : Type} {le : α → α → Bool} {x a : α} {l : List α}
    (h : a ∈ insSorted le x l) : a = x ∨ a ∈ l := by
  induction l with
  | nil =>
    simp [insSorted] at h
    exact Or.inl h
  | cons y ys ih =>
    by_cases hle : le x y = true
    · simp only [insSorted, if_pos hle] at h
      rcases List.mem_cons.mp h with h1 | h1
      · exact Or.inl h1
      · exact Or.inr h1
    · simp only [insSorted, if_neg hle] at h
      rcases List.mem_cons.mp h with h1 | h1
      · exact Or.inr (h1 ▸ List.mem_cons_self y ys)
      · rcases ih h1 with h2 | h2
        · exact Or.inl h2
        · exact Or.inr (List.mem_cons_of_mem y h2)

theorem mem_sortByB {α : Type} {le : α → α → Bool} {a : α} {l : List α}
    (h : a ∈ sortByB le l) : a ∈ l := by
  induction l with
  | nil => simp [sortByB] at h
  | cons x xs ih =>
    simp only [sortByB] at h
    rcases mem_insSorted h with h1 | h1
    · exact h1 ▸ List.mem_cons_self x xs
    · exact List.mem_cons_of_mem x (ih h1)

theorem mem_of_mapME {α β : Type} {f : α → Except String β} :
    ∀ {l : List α} {bs : List β}, mapME f l = .ok bs →
      ∀ b ∈ bs, ∃ a ∈ l, f a = .ok b := by
  intro l
  induction l with
  | nil =>
    intro bs h b hb
    simp only [mapME, Except.ok.injEq] at h
    subst h
    simp at hb
  | cons a as ih =>
    intro bs h b hb
    simp only [mapME] at h
    cases hfa : f a with
    | error e => simp [hfa] at h
    | ok v =>
      rw [hfa] at h
      cases hrec : mapME f as with
      | error e => simp [hrec] at h
      | ok vs =>
        rw [hrec] at h
        simp only [Except.ok.injEq] at h
        subst h
        rcases List.mem_cons.mp hb with h1 | h1
        · exact ⟨a, List.mem_cons_self a as, h1 ▸ hfa⟩
        · obtain ⟨a', ha', hfa'⟩ := ih hrec b h1
          exact ⟨a', List.mem_cons_of_mem a ha', hfa'⟩

theorem addColName_mem (cols : List String) (c x : String) :
    x ∈ addColName cols c ↔ x ∈ cols ∨ x = c := by
  unfold addColName
  by_cases h : cols.contains c = true
  · rw [if_pos h]
    constructor
    · exact Or.inl
    · rintro (hx | rfl)
      · exact hx
      · exact (contains_true_iff _ _).mp h
  · rw [if_neg h]
    simp

theorem setColWith_rows_length (df : DataFrame) (c : String) (f : Row → Val) :
    (setColWith df c f).rows.length = df.rows.length := by
  simp [setColWith]

theorem setColWith_cols_mem (df : DataFrame) (c : String) (f : Row → Val) (x : String) :
    x ∈ (setColWith df c f).cols ↔ x ∈ df.cols ∨ x = c := by
  simp [setColWith, addColName_mem]

theorem setColWith_id (df : DataFrame) (c : String) (f : Row → Val)
    (hc : c ∈ df.cols) (hf : ∀ r ∈ df.rows, f r = r c) :
    setColWith df c f = df := by
  unfold setColWith
  cases df with
  | mk cols rows =>
    simp only [DataFrame.mk.injEq]
    constructor
    · unfold addColName
      rw [if_pos ((contains_true_iff _ _).mpr hc)]
    · calc rows.map (fun r => Function.update r c (f r))
          = rows.map (fun r => r) :=
            List.map_congr_left (fun r hr => by
              rw [hf r hr, Function.update_eq_self])
        _ = rows := List.map_id' rows

theorem setColWithE_ok {df : DataFrame} {c : String} {f : Row → Except String Val}
    {df' : DataFrame} (h : setColWithE df c f = .ok df') :
    df'.cols = addColName df.cols c ∧
    df'.rows = df.rows.map (fun r => Function.update r c (okD (f r) Val.vnull)) ∧
    ∀ r ∈ df.rows, isOkE (f r) = true := by
  unfold setColWithE at h
  by_cases hall : (df.rows.all fun r => isOkE (f r)) = true
  · rw [if_pos hall] at h
    simp only [Except.ok.injEq] at h
    subst h
    exact ⟨rfl, rfl, fun r hr => List.all_eq_true.mp hall r hr⟩
  · rw [if_neg hall] at h
    exact absurd h (by simp)

theorem setColWithE_id (df : DataFrame) (c : String) (f : Row → Except String Val)
    (hc : c ∈ df.cols) (hf : ∀ r ∈ df.rows, f r = .ok (r c)) :
    setColWithE df c f = .ok df := by
  unfold setColWithE
  rw [if_pos (List.all_eq_true.mpr (fun r hr => by rw [hf r hr]; rfl))]
  cases df with
  | mk cols rows =>
    simp only [Except.ok.injEq, DataFrame.mk.injEq]
    constructor
    · unfold addColName
      rw [if_pos ((contains_true_iff _ _).mpr hc)]
    · calc rows.map (fun r => Function.update r c (okD (f r) Val.vnull))
          = rows.map (fun r => r) :=
            List.map_congr_left (fun r hr => by
              rw [hf r hr]
              show Function.update r c (r c) = r
              rw [Function.update_eq_self])
        _ = rows := List.map_id' rows

theorem rowsP_setColWith {df : DataFrame} {c : String} {f : Row → Val} {p : Row → Prop}
    (hstep : ∀ r ∈ df.rows, p (Function.update r c (f r))) :
    ∀ r' ∈ (setColWith df c f).rows, p r' := by
  intro r' hr'
  simp only [setColWith, List.mem_map] at hr'
  obtain ⟨r, hr, rfl⟩ := hr'
  exact hstep r hr

theorem rowsP_setColWithE {df : DataFrame} {c : String} {f : Row → Except String Val}
    {df' : DataFrame} (h : setColWithE df c f = .ok df') {p : Row → Prop}
    (hstep : ∀ r ∈ df.rows, isOkE (f r) = true →
      p (Function.update r c (okD (f r) Val.vnull))) :
    ∀ r' ∈ df'.rows, p r' := by
  obtain ⟨-, hrows, hok⟩ := setColWithE_ok h
  intro r' hr'
  rw [hrows] at hr'
  simp only [List.mem_map] at hr'
  obtain ⟨r, hr, rfl⟩ := hr'
  exact hstep r hr (hok r hr)

/-! ## Enricher invariants -/

/-- `true` exactly on integer cells. -/
def isIntV : Val → Bool
  | .vint _ => true
  | _ => false

theorem toNumericFill0_isInt (v : Val) : isIntV (toNumericFill0 v) = true := by
  cases v <;> rfl

theorem toNumericFill0_int {v : Val} (h : isIntV v = true) : toNumericFill0 v = v := by
  cases v with
  | vint n => rfl
  | vnull => simp [isIntV] at h
  | vstr s => simp [isIntV] at h

theorem fillna0AstypeInt_int {v : Val} (h : isIntV v = true) :
    fillna0AstypeInt v = .ok v := by
  cases v with
  | vint n => rfl
  | vnull => simp [isIntV] at h
  | vstr s => simp [isIntV] at h

theorem fillna0AstypeInt_okD_isInt (v : Val) (h : isOkE (fillna0AstypeInt v) = true) :
    isIntV (okD (fillna0AstypeInt v) Val.vnull) = true := by
  cases v with
  | vnull => rfl
  | vint n => rfl
  | vstr s =>
    simp only [fillna0AstypeInt] at h ⊢
    cases hs : s.toInt? with
    | some n => simp [hs, okD, isIntV]
    | none => rw [hs] at h; simp [isOkE] at h

theorem legalCell_update (r : Row) (c : String) (v : Val)
    (h1 : ("wide_runs" : String) ≠ c) (h2 : ("noball_runs" : String) ≠ c) :
    legalCell (Function.update r c v) = legalCell r := by
  unfold legalCell
  rw [Function.update_noteq h1, Function.update_noteq h2]

theorem wicketCell_update (r : Row) (c : String) (v : Val)
    (h : ("player_dismissed" : String) ≠ c) :
    wicketCell (Function.update r c v) = wicketCell r := by
  unfold wicketCell
  rw [Function.update_noteq h]

theorem coerceNumericStep_cols (df : DataFrame) (c : String) :
    (coerceNumericStep df c).cols = df.cols := by
  unfold coerceNumericStep
  by_cases h : df.cols.contains c = true
  · rw [if_pos h]
    show addColName df.cols c = df.cols
    unfold addColName
    rw [if_pos h]
  · rw [if_neg h]

theorem coerceNumericStep_rows_length (df : DataFrame) (c : String) :
    (coerceNumericStep df c).rows.length = df.rows.length := by
  unfold coerceNumericStep
  by_cases h : df.cols.contains c = true
  · rw [if_pos h]; exact setColWith_rows_length df c _
  · rw [if_neg h]

theorem totalRunsStep_cols_mem (df : DataFrame) (x : String) :
    x ∈ (totalRunsStep df).cols ↔ x ∈ df.cols ∨ x = "total_runs" := by
  unfold totalRunsStep
  by_cases h1 : df.cols.contains "total_runs" = true
  · rw [if_pos h1]
    constructor
    · exact Or.inl
    · rintro (hx | rfl)
      · exact hx
      · exact (contains_true_iff _ _).mp h1
  · rw [if_neg h1]
    by_cases h2 : df.cols.contains "batsman_runs" = true
    · rw [if_pos h2]; exact setColWith_cols_mem df _ _ x
    · rw [if_neg h2]; exact setColWith_cols_mem df _ _ x

theorem totalRunsStep_rows_length (df : DataFrame) :
    (totalRunsStep df).rows.length = df.rows.length := by
  unfold totalRunsStep
  by_cases h1 : df.cols.contains "total_runs" = true
  · rw [if_pos h1]
  · rw [if_neg h1]
    by_cases h2 : df.cols.contains "batsman_runs" = true
    · rw [if_pos h2]; exact setColWith_rows_length df _ _
    · rw [if_neg h2]; exact setColWith_rows_length df _ _

theorem extrasStep_ok_cols {df : DataFrame} {c : String} {df2 : DataFrame}
    (h : extrasStep df c = .ok df2) : df2.cols = df.cols ∧ c ∈ df.cols := by
  unfold extrasStep at h
  by_cases hc : df.cols.contains c = true
  · rw [if_pos hc] at h
    obtain ⟨hcols, -, -⟩ := setColWithE_ok h
    refine ⟨?_, (contains_true_iff _ _).mp hc⟩
    rw [hcols]
    unfold addColName
    rw [if_pos hc]
  · rw [if_neg hc] at h
    exact absurd h (by simp)

theorem extrasStep_ok_rows_length {df : DataFrame} {c : String} {df2 : DataFrame}
    (h : extrasStep df c = .ok df2) : df2.rows.length = df.rows.length := by
  unfold extrasStep at h
  by_cases hc : df.cols.contains c = true
  · rw [if_pos hc] at h
    obtain ⟨-, hrows, -⟩ := setColWithE_ok h
    rw [hrows, List.length_map]
  · rw [if_neg hc] at h
    exact absurd h (by simp)

theorem rowsP_coerceNumericStep {df : DataFrame} {c : String} {p : Row → Prop}
    (hstep : ∀ r ∈ df.rows, p (Function.update r c (toNumericFill0 (r c))))
    (hid : ∀ r ∈ df.rows, p r) :
    ∀ r' ∈ (coerceNumericStep df c).rows, p r' := by
  unfold coerceNumericStep
  by_cases h : df.cols.contains c = true
  · rw [if_pos h]; exact rowsP_setColWith hstep
  · rw [if_neg h]; exact hid

theorem rowsP_totalRunsStep {df : DataFrame} {p : Row → Prop}
    (hid : ∀ r ∈ df.rows, p r)
    (hupd : ∀ (v : Val), ∀ r ∈ df.rows, p (Function.update r "total_runs" v)) :
    ∀ r' ∈ (totalRunsStep df).rows, p r' := by
  unfold totalRunsStep
  by_cases h1 : df.cols.contains "total_runs" = true
  · rw [if_pos h1]; exact hid
  · rw [if_neg h1]
    by_cases h2 : df.cols.contains "batsman_runs" = true
    · rw [if_pos h2]; exact rowsP_setColWith (fun r hr => hupd _ r hr)
    · rw [if_neg h2]; exact rowsP_setColWith (fun r hr => hupd _ r hr)

theorem rowsP_extrasStep {df : DataFrame} {c : String} {df2 : DataFrame}
    (h : extrasStep df c = .ok df2) {p : Row → Prop}
    (hstep : ∀ r ∈ df.rows, isOkE (fillna0AstypeInt (r c)) = true →
      p (Function.update r c (okD (fillna0AstypeInt (r c)) Val.vnull))) :
    ∀ r' ∈ df2.rows, p r' := by
  unfold extrasStep at h
  by_cases hc : df.cols.contains c = true
  · rw [if_pos hc] at h
    exact rowsP_setColWithE h hstep
  · rw [if_neg hc] at h
    exact absurd h (by simp)

theorem legalStep_cols_mem (df : DataFrame) (x : String) :
    x ∈ (legalStep df).cols ↔ x ∈ df.cols ∨ x = "legal_delivery" :=
  setColWith_cols_mem df _ _ x

theorem legalStep_rows_length (df : DataFrame) :
    (legalStep df).rows.length = df.rows.length :=
  setColWith_rows_length df _ _

theorem isWicketStep_cols_mem (df : DataFrame) (x : String) :
    x ∈ (isWicketStep df).cols ↔ x ∈ df.cols ∨ x = "is_wicket" := by
  unfold isWicketStep
  by_cases hp : df.cols.contains "player_dismissed" = true
  · rw [if_pos hp]; exact setColWith_cols_mem df _ _ x
  · rw [if_neg hp]; exact setColWith_cols_mem df _ _ x

theorem isWicketStep_rows_length (df : DataFrame) :
    (isWicketStep df).rows.length = df.rows.length := by
  unfold isWicketStep
  by_cases hp : df.cols.contains "player_dismissed" = true
  · rw [if_pos hp]; exact setColWith_rows_length df _ _
  · rw [if_neg hp]; exact setColWith_rows_length df _ _

theorem coerceNumericStep_establishes (df : DataFrame) (c : String) (hmem : c ∈ df.cols) :
    ∀ r' ∈ (coerceNumericStep df c).rows, isIntV (r' c) = true := by
  unfold coerceNumericStep
  rw [if_pos ((contains_true_iff _ _).mpr hmem)]
  apply rowsP_setColWith
  intro r hr
  rw [Function.update_same]
  exact toNumericFill0_isInt _

theorem rowsP_isWicketStep {df : DataFrame} {p : Row → Prop}
    (h1 : df.cols.contains "player_dismissed" = true →
      ∀ r ∈ df.rows, p (Function.update r "is_wicket" (wicketCell r)))
    (h2 : df.cols.contains "player_dismissed" = false →
      ∀ r ∈ df.rows, p (Function.update r "is_wicket" (Val.vint 0))) :
    ∀ r' ∈ (isWicketStep df).rows, p r' := by
  unfold isWicketStep
  by_cases hp : df.cols.contains "player_dismissed" = true
  · rw [if_pos hp]; exact rowsP_setColWith (h1 hp)
  · rw [if_neg hp]; exact rowsP_setColWith (h2 (Bool.not_eq_true _ ▸ hp))

/-- The shape of a table produced by a successful run of the Enricher:
the derived columns are present, the coerced columns hold integers, and
`legal_delivery` / `is_wicket` hold exactly their defining row
formulas. -/
structure Enriched (d : DataFrame) : Prop where
  total_mem : "total_runs" ∈ d.cols
  wide_mem : "wide_runs" ∈ d.cols
  noball_mem : "noball_runs" ∈ d.cols
  legal_mem : "legal_delivery" ∈ d.cols
  wicket_mem : "is_wicket" ∈ d.cols
  bats_int : "batsman_runs" ∈ d.cols → ∀ r ∈ d.rows, isIntV (r "batsman_runs") = true
  extra_int : "extra_runs" ∈ d.cols → ∀ r ∈ d.rows, isIntV (r "extra_runs") = true
  wide_int : ∀ r ∈ d.rows, isIntV (r "wide_runs") = true
  noball_int : ∀ r ∈ d.rows, isIntV (r "noball_runs") = true
  legal_val : ∀ r ∈ d.rows, r "legal_delivery" = legalCell r
  wicket_val : ∀ r ∈ d.rows, r "is_wicket" =
    (if "player_dismissed" ∈ d.cols then wicketCell r else Val.vint 0)

theorem preprocess_of_enriched {d : DataFrame} (hd : Enriched d) :
    preprocess_deliveries d = .ok d := by
  have h1 : coerceNumericStep d "batsman_runs" = d := by
    unfold coerceNumericStep
    by_cases h : d.cols.contains "batsman_runs" = true
    · rw [if_pos h]
      exact setColWith_id _ _ _ ((contains_true_iff _ _).mp h)
        (fun r hr => toNumericFill0_int
          (hd.bats_int ((contains_true_iff _ _).mp h) r hr))
    · rw [if_neg h]
  have h2 : coerceNumericStep d "extra_runs" = d := by
    unfold coerceNumericStep
    by_cases h : d.cols.contains "extra_runs" = true
    · rw [if_pos h]
      exact setColWith_id _ _ _ ((contains_true_iff _ _).mp h)
        (fun r hr => toNumericFill0_int
          (hd.extra_int ((contains_true_iff _ _).mp h) r hr))
    · rw [if_neg h]
  have h3 : totalRunsStep d = d := by
    unfold totalRunsStep
    rw [if_pos ((contains_true_iff _ _).mpr hd.total_mem)]
  have h4 : extrasStep d "wide_runs" = .ok d := by
    unfold extrasStep
    rw [if_pos ((contains_true_iff _ _).mpr hd.wide_mem)]
    exact setColWithE_id _ _ _ hd.wide_mem
      (fun r hr => fillna0AstypeInt_int (hd.wide_int r hr))
  have h5 : extrasStep d "noball_runs" = .ok d := by
    unfold extrasStep
    rw [if_pos ((contains_true_iff _ _).mpr hd.noball_mem)]
    exact setColWithE_id _ _ _ hd.noball_mem
      (fun r hr => fillna0AstypeInt_int (hd.noball_int r hr))
  have h6 : legalStep d = d :=
    setColWith_id _ _ _ hd.legal_mem (fun r hr => (hd.legal_val r hr).symm)
  have h7 : isWicketStep d = d := by
    unfold isWicketStep
    by_cases h : d.cols.contains "player_dismissed" = true
    · rw [if_pos h]
      apply setColWith_id _ _ _ hd.wicket_mem
      intro r hr
      rw [hd.wicket_val r hr, if_pos ((contains_true_iff _ _).mp h)]
    · rw [if_neg h]
      apply setColWith_id _ _ _ hd.wicket_mem
      intro r hr
      rw [hd.wicket_val r hr,
        if_neg (fun hmem => h ((contains_true_iff _ _).mpr hmem))]
  simp only [preprocess_deliveries, h1, h2, h3, h4, h5, h6, h7]

theorem rowsP_legalStep {df : DataFrame} {p : Row → Prop}
    (hstep : ∀ r ∈ df.rows, p (Function.update r "legal_delivery" (legalCell r))) :
    ∀ r' ∈ (legalStep df).rows, p r' := by
  unfold legalStep
  exact rowsP_setColWith hstep

theorem enriched_of_preprocess {d0 d' : DataFrame}
    (h : preprocess_deliveries d0 = .ok d') : Enriched d' := by
  simp only [preprocess_deliveries] at h
  split at h
  · exact absurd h (by simp)
  next D4 h4 =>
    split at h
    · exact absurd h (by simp)
    next D5 h5 =>
      simp only [Except.ok.injEq] at h
      subst h
      set B1 := coerceNumericStep d0 "batsman_runs" with hB1
      set B2 := coerceNumericStep B1 "extra_runs" with hB2
      set B3 := totalRunsStep B2 with hB3
      have hB2cols : B2.cols = d0.cols := by
        rw [hB2, coerceNumericStep_cols, hB1, coerceNumericStep_cols]
      have hB3mem : ∀ x, x ∈ B3.cols ↔ x ∈ d0.cols ∨ x = "total_runs" := by
        intro x
        rw [hB3, totalRunsStep_cols_mem, hB2cols]
      obtain ⟨hD4cols, hwideB3⟩ := extrasStep_ok_cols h4
      obtain ⟨hD5cols, hnbD4⟩ := extrasStep_ok_cols h5
      have hD5c : D5.cols = B3.cols := by rw [hD5cols, hD4cols]
      have hF : ∀ x, x ∈ (isWicketStep (legalStep D5)).cols ↔
          (x ∈ B3.cols ∨ x = "legal_delivery") ∨ x = "is_wicket" := by
        intro x
        rw [isWicketStep_cols_mem, legalStep_cols_mem, hD5c]
      -- integer invariants for batsman_runs
      have hbatsB2 : "batsman_runs" ∈ d0.cols →
          ∀ r ∈ B2.rows, isIntV (r "batsman_runs") = true := by
        intro hmem
        have hb1 : ∀ r ∈ B1.rows, isIntV (r "batsman_runs") = true := by
          rw [hB1]
          exact coerceNumericStep_establishes d0 "batsman_runs" hmem
        rw [hB2]
        apply rowsP_coerceNumericStep ?_ hb1
        intro r hr
        rw [Function.update_noteq (by decide : ("batsman_runs" : String) ≠ "extra_runs")]
        exact hb1 r hr
      have hbatsB3 : "batsman_runs" ∈ d0.cols →
          ∀ r ∈ B3.rows, isIntV (r "batsman_runs") = true := by
        intro hmem
        rw [hB3]
        apply rowsP_totalRunsStep (hbatsB2 hmem)
        intro v r hr
        rw [Function.update_noteq (by decide : ("batsman_runs" : String) ≠ "total_runs")]
        exact hbatsB2 hmem r hr
      -- integer invariants for extra_runs
      have hextraB2 : "extra_runs" ∈ d0.cols →
          ∀ r ∈ B2.rows, isIntV (r "extra_runs") = true := by
        intro hmem
        rw [hB2]
        apply coerceNumericStep_establishes
        rw [hB1, coerceNumericStep_cols]
        exact hmem
      have hextraB3 : "extra_runs" ∈ d0.cols →
          ∀ r ∈ B3.rows, isIntV (r "extra_runs") = true := by
        intro hmem
        rw [hB3]
        apply rowsP_totalRunsStep (hextraB2 hmem)
        intro v r hr
        rw [Function.update_noteq (by decide : ("extra_runs" : String) ≠ "total_runs")]
        exact hextraB2 hmem r hr
      -- wide_runs / noball_runs integers
      have hwD4 : ∀ r ∈ D4.rows, isIntV (r "wide_runs") = true := by
        intro r hr
        refine @rowsP_extrasStep B3 "wide_runs" D4 h4 (fun q => isIntV (q "wide_runs") = true) ?_ r hr
        intro r2 hr2 hok
        rw [Function.update_same]
        exact fillna0AstypeInt_okD_isInt _ hok
      have hwD5 : ∀ r ∈ D5.rows, isIntV (r "wide_runs") = true := by
        intro r hr
        refine @rowsP_extrasStep D4 "noball_runs" D5 h5 (fun q => isIntV (q "wide_runs") = true) ?_ r hr
        intro r2 hr2 hok
        rw [Function.update_noteq (by decide : ("wide_runs" : String) ≠ "noball_runs")]
        exact hwD4 r2 hr2
      have hnD5 : ∀ r ∈ D5.rows, isIntV (r "noball_runs") = true := by
        intro r hr
        refine @rowsP_extrasStep D4 "noball_runs" D5 h5 (fun q => isIntV (q "noball_runs") = true) ?_ r hr
        intro r2 hr2 hok
        rw [Function.update_same]
        exact fillna0AstypeInt_okD_isInt _ hok
      have hbatsD4 : "batsman_runs" ∈ d0.cols →
          ∀ r ∈ D4.rows, isIntV (r "batsman_runs") = true := by
        intro hmem r hr
        refine @rowsP_extrasStep B3 "wide_runs" D4 h4 (fun q => isIntV (q "batsman_runs") = true) ?_ r hr
        intro r2 hr2 hok
        rw [Function.update_noteq (by decide : ("batsman_runs" : String) ≠ "wide_runs")]
        exact hbatsB3 hmem r2 hr2
      have hbatsD5 : "batsman_runs" ∈ d0.cols →
          ∀ r ∈ D5.rows, isIntV (r "batsman_runs") = true := by
        intro hmem r hr
        refine @rowsP_extrasStep D4 "noball_runs" D5 h5 (fun q => isIntV (q "batsman_runs") = true) ?_ r hr
        intro r2 hr2 hok
        rw [Function.update_noteq (by decide : ("batsman_runs" : String) ≠ "noball_runs")]
        exact hbatsD4 hmem r2 hr2
      have hextraD4 : "extra_runs" ∈ d0.cols →
          ∀ r ∈ D4.rows, isIntV (r "extra_runs") = true := by
        intro hmem r hr
        refine @rowsP_extrasStep B3 "wide_runs" D4 h4 (fun q => isIntV (q "extra_runs") = true) ?_ r hr
        intro r2 hr2 hok
        rw [Function.update_noteq (by decide : ("extra_runs" : String) ≠ "wide_runs")]
        exact hextraB3 hmem r2 hr2
      have hextraD5 : "extra_runs" ∈ d0.cols →
          ∀ r ∈ D5.rows, isIntV (r "extra_runs") = true := by
        intro hmem r hr
        refine @rowsP_extrasStep D4 "noball_runs" D5 h5 (fun q => isIntV (q "extra_runs") = true) ?_ r hr
        intro r2 hr2 hok
        rw [Function.update_noteq (by decide : ("extra_runs" : String) ≠ "noball_runs")]
        exact hextraD4 hmem r2 hr2
      -- carry the four integer invariants through legalStep
      have hwL : ∀ r ∈ (legalStep D5).rows, isIntV (r "wide_runs") = true := by
        intro r hr
        refine @rowsP_legalStep D5 (fun q => isIntV (q "wide_runs") = true) ?_ r hr
        intro r2 hr2
        rw [Function.update_noteq (by decide : ("wide_runs" : String) ≠ "legal_delivery")]
        exact hwD5 r2 hr2
      have hnL : ∀ r ∈ (legalStep D5).rows, isIntV (r "noball_runs") = true := by
        intro r hr
        refine @rowsP_legalStep D5 (fun q => isIntV (q "noball_runs") = true) ?_ r hr
        intro r2 hr2
        rw [Function.update_noteq (by decide : ("noball_runs" : String) ≠ "legal_delivery")]
        exact hnD5 r2 hr2
      have hbatsL : "batsman_runs" ∈ d0.cols →
          ∀ r ∈ (legalStep D5).rows, isIntV (r "batsman_runs") = true := by
        intro hmem r hr
        refine @rowsP_legalStep D5 (fun q => isIntV (q "batsman_runs") = true) ?_ r hr
        intro r2 hr2
        rw [Function.update_noteq (by decide : ("batsman_runs" : String) ≠ "legal_delivery")]
        exact hbatsD5 hmem r2 hr2
      have hextraL : "extra_runs" ∈ d0.cols →
          ∀ r ∈ (legalStep D5).rows, isIntV (r "extra_runs") = true := by
        intro hmem r hr
        refine @rowsP_legalStep D5 (fun q => isIntV (q "extra_runs") = true) ?_ r hr
        intro r2 hr2
        rw [Function.update_noteq (by decide : ("extra_runs" : String) ≠ "legal_delivery")]
        exact hextraD5 hmem r2 hr2
      have hlL : ∀ r ∈ (legalStep D5).rows, r "legal_delivery" = legalCell r := by
        intro r hr
        refine @rowsP_legalStep D5 (fun q => q "legal_delivery" = legalCell q) ?_ r hr
        intro r2 hr2
        rw [Function.update_same,
          legalCell_update r2 _ _ (by decide) (by decide)]
      -- and through isWicketStep
      have hwF : ∀ r ∈ (isWicketStep (legalStep D5)).rows, isIntV (r "wide_runs") = true := by
        intro r hr
        refine @rowsP_isWicketStep (legalStep D5) (fun q => isIntV (q "wide_runs") = true) ?_ ?_ r hr
        · intro _ r2 hr2
          rw [Function.update_noteq (by decide : ("wide_runs" : String) ≠ "is_wicket")]
          exact hwL r2 hr2
        · intro _ r2 hr2
          rw [Function.update_noteq (by decide : ("wide_runs" : String) ≠ "is_wicket")]
          exact hwL r2 hr2
      have hnF : ∀ r ∈ (isWicketStep (legalStep D5)).rows, isIntV (r "noball_runs") = true := by
        intro r hr
        refine @rowsP_isWicketStep (legalStep D5) (fun q => isIntV (q "noball_runs") = true) ?_ ?_ r hr
        · intro _ r2 hr2
          rw [Function.update_noteq (by decide : ("noball_runs" : String) ≠ "is_wicket")]
          exact hnL r2 hr2
        · intro _ r2 hr2
          rw [Function.update_noteq (by decide : ("noball_runs" : String) ≠ "is_wicket")]
          exact hnL r2 hr2
      have hbatsF : "batsman_runs" ∈ d0.cols →
          ∀ r ∈ (isWicketStep (legalStep D5)).rows, isIntV (r "batsman_runs") = true := by
        intro hmem r hr
        refine @rowsP_isWicketStep (legalStep D5) (fun q => isIntV (q "batsman_runs") = true) ?_ ?_ r hr
        · intro _ r2 hr2
          rw [Function.update_noteq (by decide : ("batsman_runs" : String) ≠ "is_wicket")]
          exact hbatsL hmem r2 hr2
        · intro _ r2 hr2
          rw [Function.update_noteq (by decide : ("batsman_runs" : String) ≠ "is_wicket")]
          exact hbatsL hmem r2 hr2
      have hextraF : "extra_runs" ∈ d0.cols →
          ∀ r ∈ (isWicketStep (legalStep D5)).rows, isIntV (r "extra_runs") = true := by
        intro hmem r hr
        refine @rowsP_isWicketStep (legalStep D5) (fun q => isIntV (q "extra_runs") = true) ?_ ?_ r hr
        · intro _ r2 hr2
          rw [Function.update_noteq (by decide : ("extra_runs" : String) ≠ "is_wicket")]
          exact hextraL hmem r2 hr2
        · intro _ r2 hr2
          rw [Function.update_noteq (by decide : ("extra_runs" : String) ≠ "is_wicket")]
          exact hextraL hmem r2 hr2
      have hlF : ∀ r ∈ (isWicketStep (legalStep D5)).rows,
          r "legal_delivery" = legalCell r := by
        intro r hr
        refine @rowsP_isWicketStep (legalStep D5) (fun q => q "legal_delivery" = legalCell q) ?_ ?_ r hr
        · intro _ r2 hr2
          rw [Function.update_noteq (by decide : ("legal_delivery" : String) ≠ "is_wicket"),
            legalCell_update r2 _ _ (by decide) (by decide)]
          exact hlL r2 hr2
        · intro _ r2 hr2
          rw [Function.update_noteq (by decide : ("legal_delivery" : String) ≠ "is_wicket"),
            legalCell_update r2 _ _ (by decide) (by decide)]
          exact hlL r2 hr2
      have hpdF : ("player_dismissed" ∈ (isWicketStep (legalStep D5)).cols) ↔
          ("player_dismissed" ∈ (legalStep D5).cols) := by
        rw [isWicketStep_cols_mem]
        constructor
        · rintro (hx | hx)
          · exact hx
          · exact absurd hx (by decide)
        · exact Or.inl
      have hwvF : ∀ r ∈ (isWicketStep (legalStep D5)).rows, r "is_wicket" =
          (if "player_dismissed" ∈ (isWicketStep (legalStep D5)).cols
           then wicketCell r else Val.vint 0) := by
        intro r hr
        refine @rowsP_isWicketStep (legalStep D5) (fun q => q "is_wicket" = (if "player_dismissed" ∈ (isWicketStep (legalStep D5)).cols then wicketCell q else Val.vint 0)) ?_ ?_ r hr
        · intro hpd r2 hr2
          rw [if_pos (hpdF.mpr ((contains_true_iff _ _).mp hpd)),
            Function.update_same,
            wicketCell_update r2 _ _
              (by decide : ("player_dismissed" : String) ≠ "is_wicket")]
        · intro hpd r2 hr2
          have hnot : ¬ ("player_dismissed" ∈ (isWicketStep (legalStep D5)).cols) := by
            intro hmem
            have hco := (contains_true_iff _ _).mpr (hpdF.mp hmem)
            rw [hpd] at hco
            exact Bool.false_ne_true hco
          rw [if_neg hnot, Function.update_same]
      refine ⟨?_, ?_, ?_, ?_, ?_, ?_, ?_, hwF, hnF, hlF, hwvF⟩
      · exact (hF _).mpr (Or.inl (Or.inl ((hB3mem _).mpr (Or.inr rfl))))
      · exact (hF _).mpr (Or.inl (Or.inl hwideB3))
      · refine (hF _).mpr (Or.inl (Or.inl ?_))
        rw [← hD4cols]
        exact hnbD4
      · exact (hF _).mpr (Or.inl (Or.inr rfl))
      · exact (hF _).mpr (Or.inr rfl)
      · intro hmem
        apply hbatsF
        rcases (hF _).mp hmem with (hx | hx) | hx
        · rcases (hB3mem _).mp hx with hy | hy
          · exact hy
          · exact absurd hy (by decide)
        · exact absurd hx (by decide)
        · exact absurd hx (by decide)
      · intro hmem
        apply hextraF
        rcases (hF _).mp hmem with (hx | hx) | hx
        · rcases (hB3mem _).mp hx with hy | hy
          · exact hy
          · exact absurd hy (by decide)
        · exact absurd hx (by decide)
        · exact absurd hx (by decide)

theorem preprocess_rows_length {d0 d' : DataFrame}
    (h : preprocess_deliveries d0 = .ok d') : d'.rows.length = d0.rows.length := by
  simp only [preprocess_deliveries] at h
  split at h
  · exact absurd h (by simp)
  next D4 h4 =>
    split at h
    · exact absurd h (by simp)
    next D5 h5 =>
      simp only [Except.ok.injEq] at h
      subst h
      rw [isWicketStep_rows_length, legalStep_rows_length,
        extrasStep_ok_rows_length h5, extrasStep_ok_rows_length h4,
        totalRunsStep_rows_length, coerceNumericStep_rows_length,
        coerceNumericStep_rows_length]

/-! ## Claim theorems for the Enricher -/

/-- C1 (code bug): on a delivery table lacking `wide_runs`
(respectively `noball_runs`), `preprocess_deliveries` raises
`AttributeError` instead of defaulting the absent column to zero:
`d.get(c, 0)` yields the plain int 0 and `(0).fillna` does not exist
(lines 117-118). -/
theorem claim1_wide_noball_absent_raises :
    errMsg (preprocess_deliveries delivNoWide) =
      some "AttributeError: int object has no attribute fillna" ∧
    errMsg (preprocess_deliveries delivNoNoball) =
      some "AttributeError: int object has no attribute fillna" :=
  ⟨rfl, rfl⟩

/-- C5: the Enricher is idempotent: re-running `preprocess_deliveries`
on a table it successfully produced returns that table unchanged, so
`total_runs`, `legal_delivery` and `is_wicket` keep their values. -/
theorem claim5_enricher_idempotent (d : DataFrame)
    (h : isOkE (preprocess_deliveries d) = true) :
    (preprocess_deliveries d).bind preprocess_deliveries =
      preprocess_deliveries d := by
  obtain ⟨d', hd'⟩ : ∃ d', preprocess_deliveries d = .ok d' := by
    cases he : preprocess_deliveries d with
    | ok v => exact ⟨v, rfl⟩
    | error m => rw [he] at h; simp [isOkE] at h
  rw [hd']
  show preprocess_deliveries d' = .ok d'
  exact preprocess_of_enriched (enriched_of_preprocess hd')

/-- Witness for C5 at a concrete delivery table. -/
theorem claim5_enricher_idempotent_witness :
    isOkE (preprocess_deliveries delivRunOut) = true ∧
    (preprocess_deliveries delivRunOut).bind preprocess_deliveries =
      preprocess_deliveries delivRunOut :=
  ⟨rfl, claim5_enricher_idempotent delivRunOut rfl⟩

/-- C7: whenever the Enricher succeeds, every output row has
`legal_delivery` equal to 1 if its (coerced) `wide_runs` and
`noball_runs` are both zero and equal to 0 otherwise. -/
theorem claim7_legal_delivery_iff (d : DataFrame)
    (h : isOkE (preprocess_deliveries d) = true) :
    (okD (preprocess_deliveries d) d).rows.all (fun r =>
      r "legal_delivery" ==
        Val.vint (if r "wide_runs" == Val.vint 0 && r "noball_runs" == Val.vint 0
                  then 1 else 0)) = true := by
  have hd' := okD_spec (preprocess_deliveries d) d h
  have henr := enriched_of_preprocess hd'
  apply List.all_eq_true.mpr
  intro r hr
  rw [henr.legal_val r hr]
  simp [legalCell]

/-- Witness for C7 at a concrete delivery table. -/
theorem claim7_legal_delivery_iff_witness :
    isOkE (preprocess_deliveries delivRunOut) = true ∧
    (okD (preprocess_deliveries delivRunOut) delivRunOut).rows.all (fun r =>
      r "legal_delivery" ==
        Val.vint (if r "wide_runs" == Val.vint 0 && r "noball_runs" == Val.vint 0
                  then 1 else 0)) = true :=
  ⟨rfl, claim7_legal_delivery_iff delivRunOut rfl⟩

/-- C8: the Enricher operates on a copy (the embedding is a pure
function of its input) and, whenever it succeeds, the returned table
has exactly as many rows as the input. -/
theorem claim8_enricher_preserves_row_count (d : DataFrame)
    (h : isOkE (preprocess_deliveries d) = true) :
    (okD (preprocess_deliveries d) d).rows.length = d.rows.length :=
  preprocess_rows_length (okD_spec (preprocess_deliveries d) d h)

/-- Witness for C8 at a concrete delivery table. -/
theorem claim8_enricher_preserves_row_count_witness :
    isOkE (preprocess_deliveries delivRunOut) = true ∧
    (okD (preprocess_deliveries delivRunOut) delivRunOut).rows.length =
      delivRunOut.rows.length :=
  ⟨rfl, claim8_enricher_preserves_row_count delivRunOut rfl⟩

/-! ## Joiner lemmas and claims -/

theorem length_filter_le_one {α β : Type} [DecidableEq β] (f : α → β) (v : β)
    (l : List α) (h : (l.map f).Nodup) :
    (l.filter (fun x => f x == v)).length ≤ 1 := by
  induction l with
  | nil => simp
  | cons a as ih =>
    rw [List.map_cons, List.nodup_cons] at h
    obtain ⟨hna, hnd⟩ := h
    rw [List.filter_cons]
    by_cases hfa : (f a == v) = true
    · rw [if_pos hfa]
      have hnil : as.filter (fun x => f x == v) = [] := by
        apply List.filter_eq_nil_iff.mpr
        intro x hx hcontra
        have hxv : f x = v := by simpa using hcontra
        have hav : f a = v := by simpa using hfa
        exact hna (hav ▸ hxv ▸ List.mem_map_of_mem f hx)
      rw [hnil]
      simp
    · rw [if_neg hfa]
      exact ih hnd

theorem merge_rows_length_of_nodup (matchesDf deliveries : DataFrame)
    (hkeys : (deliveries.cols.contains "match_id" &&
      matchesDf.cols.contains "match_id") = true)
    (hnd : (matchesDf.rows.map (fun r => r "match_id")).Nodup) :
    (merge_matches_deliveries matchesDf deliveries).rows.length =
      deliveries.rows.length := by
  unfold merge_matches_deliveries
  rw [if_pos hkeys]
  show (deliveries.rows.flatMap _).length = _
  rw [List.length_flatMap]
  have hone : ∀ dr ∈ deliveries.rows,
      ((match matchesDf.rows.filter (fun mr => mr "match_id" == dr "match_id") with
        | [] => [fun c => if (List.filter
            (fun c => c != "match_id" && !(deliveries.cols.contains c))
            (List.filter (fun c => matchesDf.cols.contains c)
              ["match_id", "season", "winner", "venue", "team1", "team2"])).contains c
            then Val.vnull else dr c]
        | m :: ms => (m :: ms).map (fun mr => fun c => if (List.filter
            (fun c => c != "match_id" && !(deliveries.cols.contains c))
            (List.filter (fun c => matchesDf.cols.contains c)
              ["match_id", "season", "winner", "venue", "team1", "team2"])).contains c
            then mr c else dr c)) : List Row).length = 1 := by
    intro dr _
    cases hms : matchesDf.rows.filter (fun mr => mr "match_id" == dr "match_id") with
    | nil => rfl
    | cons m ms =>
      have hle := length_filter_le_one (fun r => r "match_id") (dr "match_id")
        matchesDf.rows hnd
      rw [hms] at hle
      simp only [List.length_cons] at hle
      have hms0 : ms = [] := List.eq_nil_of_length_eq_zero (by omega)
      subst hms0
      rfl
  calc (deliveries.rows.map _).sum
      = (deliveries.rows.map (fun _ => 1)).sum := by
        apply congrArg
        exact List.map_congr_left hone
    _ = deliveries.rows.length := by
        simp

/-- C6: when both tables carry `match_id` and the match table's
`match_id` values are unique, the left join returns exactly one row per
delivery row; when the key is not shared, the Joiner returns the
delivery table unchanged (copying is the identity in this pure
embedding), attaching no match-level columns. -/
theorem claim6_join_row_count_and_fallback (matchesDf deliveries : DataFrame) :
    ((deliveries.cols.contains "match_id" &&
        matchesDf.cols.contains "match_id") = true →
      (matchesDf.rows.map (fun r => r "match_id")).Nodup →
      (merge_matches_deliveries matchesDf deliveries).rows.length =
        deliveries.rows.length) ∧
    ((deliveries.cols.contains "match_id" &&
        matchesDf.cols.contains "match_id") = false →
      merge_matches_deliveries matchesDf deliveries = deliveries) := by
  constructor
  · exact merge_rows_length_of_nodup matchesDf deliveries
  · intro hk
    unfold merge_matches_deliveries
    rw [if_neg (fun hc => Bool.false_ne_true (hk ▸ hc))]

/-- Witness for C6: both the unique-key case and the no-key fallback at
concrete tables. -/
theorem claim6_join_row_count_and_fallback_witness :
    ((delivRunOut.cols.contains "match_id" &&
        matchesOne.cols.contains "match_id") = true ∧
     (matchesOne.rows.map (fun r => r "match_id")).Nodup ∧
     (merge_matches_deliveries matchesOne delivRunOut).rows.length =
       delivRunOut.rows.length) ∧
    ((delivRunOut.cols.contains "match_id" &&
        matchesNoId.cols.contains "match_id") = false ∧
     merge_matches_deliveries matchesNoId delivRunOut = delivRunOut) :=
  ⟨⟨rfl, by decide,
    (claim6_join_row_count_and_fallback matchesOne delivRunOut).1 rfl (by decide)⟩,
   ⟨rfl, (claim6_join_row_count_and_fallback matchesNoId delivRunOut).2 rfl⟩⟩

/-! ## Aggregator lemmas and claims -/

theorem compute_ok_parts {merged matchesDf : DataFrame} {team season : String}
    {t : Tables}
    (h : compute_figs_and_tables merged matchesDf team season = .ok t) :
    kpisTable merged matchesDf = .ok t.kpis ∧
    topBatsmenTable merged = .ok t.top_batsmen ∧
    topBowlersTable merged = .ok t.top_bowlers ∧
    winsTables matchesDf team season = .ok (t.wins_by_season, t.team_wins) ∧
    venueTables matchesDf team season = .ok (t.top_venues, t.team_venue_wins) ∧
    headToHeadTable matchesDf = t.head_to_head := by
  unfold compute_figs_and_tables at h
  split at h
  · exact absurd h (by simp)
  next k hk =>
    split at h
    · exact absurd h (by simp)
    next tb htb =>
      split at h
      · exact absurd h (by simp)
      next tw htw =>
        split at h
        · exact absurd h (by simp)
        next wbs twins hws =>
          split at h
          · exact absurd h (by simp)
          next tv tvw hvt =>
            simp only [Except.ok.injEq] at h
            subst h
            exact ⟨hk, htb, htw, hws, hvt, rfl⟩

theorem bowlerRowOf_ok_fields {merged : DataFrame} {k : Val} {row : BowlerRow}
    (h : bowlerRowOf merged k = .ok row) :
    row.bowler = k ∧
    row.overs = (row.legal_balls : ℚ) / 6 ∧
    row.economy = (if 0 < row.overs
      then some ((row.runs_conceded : ℚ) / row.overs) else none) ∧
    sumVals ((merged.rows.filter (fun r => r "bowler" == k)).map
      (fun r => r "is_wicket")) = .ok row.wickets := by
  unfold bowlerRowOf at h
  split at h
  · next rc lb wk hrc hlb hwk =>
    simp only [Except.ok.injEq] at h
    subst h
    exact ⟨rfl, rfl, rfl, hwk⟩
  · exact absurd h (by simp)
  · exact absurd h (by simp)
  · exact absurd h (by simp)

theorem topBowlers_ok_rows {merged : DataFrame} {l : List BowlerRow}
    (h : topBowlersTable merged = .ok (some l)) :
    ∀ row ∈ l, ∃ k, bowlerRowOf merged k = .ok row := by
  unfold topBowlersTable at h
  split_ifs at h
  · split at h
    · exact absurd h (by simp)
    next l0 hl0 =>
      simp only [Except.ok.injEq, Option.some.injEq] at h
      subst h
      intro row hrow
      have h1 : row ∈ sortByB (fun a b => decide (b.wickets ≤ a.wickets)) l0 :=
        List.mem_of_mem_take hrow
      have h2 : row ∈ l0 := mem_sortByB h1
      obtain ⟨k, -, hk⟩ := mem_of_mapME hl0 row h2
      exact ⟨k, hk⟩
  all_goals exact absurd h (by simp)

theorem kpisTable_ok {merged matchesDf : DataFrame} {k : Kpis}
    (h : kpisTable merged matchesDf = .ok k) :
    k.total_matches = (if matchesDf.cols.contains "match_id" = true
      then nuniqueCol matchesDf "match_id" else matchesDf.rows.length) ∧
    sumColOr0 merged "total_runs" = .ok k.total_runs ∧
    sumColOr0 merged "is_wicket" = .ok k.total_wickets := by
  unfold kpisTable at h
  split at h
  · exact absurd h (by simp)
  next tr htr =>
    split at h
    · exact absurd h (by simp)
    next tw htw =>
      simp only [Except.ok.injEq] at h
      refine ⟨?_, ?_, ?_⟩
      · rw [← h]
      · rw [← h]
        exact htr
      · rw [← h]
        exact htw

/-- C2 (code bug): with a specific team selected and a match table that
has `winner` and `season` but no `match_id`, the Aggregator raises
`KeyError` at line 205 instead of skipping the wins-per-season
aggregate. -/
theorem claim2_team_filter_without_match_id_raises :
    errMsg (compute_figs_and_tables emptyDf matchesNoId
      "Mumbai Indians" "All Seasons") = some "KeyError: match_id" := rfl

/-- What C3 claims the no-team-filter top-venues aggregate to be:
venues counted over the season-filtered match table (modelled from the
spec wording, for comparison with the source computation). -/
def topVenuesSeasonFilteredSpec (matchesDf : DataFrame) (season : String) :
    List (Val × Nat) :=
  valueCountsHead
    (filterRows matchesDf (fun r => valToStr (r "season") == season)) "venue" 10

/-- C3 counterexample: with two matches in different seasons and the
2020 season selected, the produced top-venues aggregate still counts
the 2019 venue, so it differs from the season-filtered count the claim
describes. -/
theorem claim3_counterexample :
    (okD (compute_figs_and_tables emptyDf matchesTwoSeasons "All Teams" "2020")
      emptyTables).top_venues ≠
    some (topVenuesSeasonFilteredSpec matchesTwoSeasons "2020") := by decide

/-- C3 as amended: with no team filter, the top-venues aggregate is the
top 10 venues by raw match count over the FULL match table — the
selected season is ignored on this branch (line 214 uses `matches`, not
the filtered table). -/
theorem claim3_top_venues_ignore_season (merged matchesDf : DataFrame)
    (season : String)
    (hv : matchesDf.cols.contains "venue" = true)
    (h : isOkE (compute_figs_and_tables merged matchesDf "All Teams" season) = true) :
    (okD (compute_figs_and_tables merged matchesDf "All Teams" season)
      emptyTables).top_venues = some (valueCountsHead matchesDf "venue" 10) := by
  have hco := okD_spec (compute_figs_and_tables merged matchesDf "All Teams" season)
    emptyTables h
  obtain ⟨-, -, -, -, hvt, -⟩ := compute_ok_parts hco
  unfold venueTables at hvt
  rw [if_pos hv, if_pos rfl] at hvt
  simp only [Except.ok.injEq, Prod.mk.injEq] at hvt
  exact hvt.1.symm

/-- Witness for C3's amended claim at a concrete pair. -/
theorem claim3_top_venues_ignore_season_witness :
    matchesTwoSeasons.cols.contains "venue" = true ∧
    isOkE (compute_figs_and_tables emptyDf matchesTwoSeasons "All Teams" "2020") = true ∧
    (okD (compute_figs_and_tables emptyDf matchesTwoSeasons "All Teams" "2020")
      emptyTables).top_venues = some (valueCountsHead matchesTwoSeasons "venue" 10) :=
  ⟨rfl, rfl, claim3_top_venues_ignore_season emptyDf matchesTwoSeasons "2020" rfl rfl⟩

/-- The sum of `is_wicket` over all of a bowler's deliveries — with no
filtering on `dismissal_kind`. -/
def bowlerWicketsSpec (merged : DataFrame) (b : Val) : Except String Int :=
  sumVals ((merged.rows.filter (fun r => r "bowler" == b)).map
    (fun r => r "is_wicket"))

/-- One top-bowlers row agrees with `bowlerWicketsSpec`. -/
def bowlerWicketsOk (merged : DataFrame) (row : BowlerRow) : Bool :=
  match bowlerWicketsSpec merged row.bowler with
  | .ok n => n == row.wickets
  | .error _ => false

/-- Check a predicate on every row of an optional table. -/
def optionAllB {α : Type} (p : α → Bool) : Option (List α) → Bool
  | none => true
  | some l => l.all p

/-- C4 counterexample: a single delivery whose `dismissal_kind` is
`run out` still contributes to its bowler's wickets — the pipeline
reports wickets = 1 for bowler `x`, where the claim requires 0. -/
theorem claim4_counterexample :
    Option.map (List.map (fun row => (row.bowler, row.wickets)))
      ((okD (compute_figs_and_tables
        (merge_matches_deliveries matchesOne
          (okD (preprocess_deliveries delivRunOut) delivRunOut))
        matchesOne "All Teams" "All Seasons") emptyTables).top_bowlers) =
      some [(Val.vstr "x", (1 : Int))] := by
  decide

/-- C4 as amended: each bowler's `wickets` in the top-bowlers aggregate
is the plain sum of `is_wicket` over that bowler's deliveries; no
dismissal kind (`run out`, `retired hurt` included) is excluded. -/
theorem claim4_wickets_count_all_dismissals (merged matchesDf : DataFrame)
    (team season : String)
    (h : isOkE (compute_figs_and_tables merged matchesDf team season) = true) :
    optionAllB (bowlerWicketsOk merged)
      ((okD (compute_figs_and_tables merged matchesDf team season)
        emptyTables).top_bowlers) = true := by
  have hco := okD_spec (compute_figs_and_tables merged matchesDf team season)
    emptyTables h
  obtain ⟨-, -, htw, -, -, -⟩ := compute_ok_parts hco
  cases hob : (okD (compute_figs_and_tables merged matchesDf team season)
      emptyTables).top_bowlers with
  | none => rfl
  | some l =>
    rw [hob] at htw
    show l.all _ = true
    apply List.all_eq_true.mpr
    intro row hrow
    obtain ⟨k, hk⟩ := topBowlers_ok_rows htw row hrow
    obtain ⟨hb, -, -, hwk⟩ := bowlerRowOf_ok_fields hk
    unfold bowlerWicketsOk bowlerWicketsSpec
    rw [hb, hwk]
    simp

/-- Witness for C4's amended claim at a concrete pipeline run. -/
theorem claim4_wickets_count_all_dismissals_witness :
    isOkE (compute_figs_and_tables
      (merge_matches_deliveries matchesOne
        (okD (preprocess_deliveries delivRunOut) delivRunOut))
      matchesOne "All Teams" "All Seasons") = true ∧
    optionAllB (bowlerWicketsOk
      (merge_matches_deliveries matchesOne
        (okD (preprocess_deliveries delivRunOut) delivRunOut)))
      ((okD (compute_figs_and_tables
        (merge_matches_deliveries matchesOne
          (okD (preprocess_deliveries delivRunOut) delivRunOut))
        matchesOne "All Teams" "All Seasons") emptyTables).top_bowlers) = true :=
  ⟨rfl, claim4_wickets_count_all_dismissals
    (merge_matches_deliveries matchesOne
      (okD (preprocess_deliveries delivRunOut) delivRunOut))
    matchesOne "All Teams" "All Seasons" rfl⟩

/-- A top-bowlers row has a well-guarded economy: undefined (`none`)
when no legal ball was bowled, and `runs_conceded / overs` when
`overs > 0`. -/
def bowlerEconomyOk (row : BowlerRow) : Bool :=
  (if row.legal_balls = 0 then row.economy == none else true) &&
  (if 0 < row.overs
   then row.economy == some ((row.runs_conceded : ℚ) / row.overs) else true)

theorem bowlerEconomyOk_of_fields {row : BowlerRow}
    (hov : row.overs = (row.legal_balls : ℚ) / 6)
    (hec : row.economy = if 0 < row.overs
      then some ((row.runs_conceded : ℚ) / row.overs) else none) :
    bowlerEconomyOk row = true := by
  unfold bowlerEconomyOk
  rw [Bool.and_eq_true]
  refine ⟨?_, ?_⟩
  · by_cases hlb : row.legal_balls = 0
    · have hov0 : ¬ (0 < row.overs) := by rw [hov, hlb]; norm_num
      rw [if_pos hlb, hec, if_neg hov0]
      simp
    · rw [if_neg hlb]
  · by_cases hov0 : 0 < row.overs
    · rw [if_pos hov0, hec, if_pos hov0]
      simp
    · rw [if_neg hov0]

/-- C9: economy is never a division-by-zero failure: every produced
top-bowlers row has `economy = none` whenever its summed `legal_balls`
is 0, and `economy = runs_conceded / overs` whenever `overs > 0`. -/
theorem claim9_economy_guarded (merged matchesDf : DataFrame)
    (team season : String)
    (h : isOkE (compute_figs_and_tables merged matchesDf team season) = true) :
    optionAllB bowlerEconomyOk
      ((okD (compute_figs_and_tables merged matchesDf team season)
        emptyTables).top_bowlers) = true := by
  have hco := okD_spec (compute_figs_and_tables merged matchesDf team season)
    emptyTables h
  obtain ⟨-, -, htw, -, -, -⟩ := compute_ok_parts hco
  cases hob : (okD (compute_figs_and_tables merged matchesDf team season)
      emptyTables).top_bowlers with
  | none => rfl
  | some l =>
    rw [hob] at htw
    show l.all _ = true
    apply List.all_eq_true.mpr
    intro row hrow
    obtain ⟨k, hk⟩ := topBowlers_ok_rows htw row hrow
    obtain ⟨-, hov, hec, -⟩ := bowlerRowOf_ok_fields hk
    exact bowlerEconomyOk_of_fields hov hec

/-- Witness for C9 at a concrete pipeline run. -/
theorem claim9_economy_guarded_witness :
    isOkE (compute_figs_and_tables
      (okD (preprocess_deliveries delivRunOut) delivRunOut)
      matchesOne "All Teams" "All Seasons") = true ∧
    optionAllB bowlerEconomyOk
      ((okD (compute_figs_and_tables
        (okD (preprocess_deliveries delivRunOut) delivRunOut)
        matchesOne "All Teams" "All Seasons") emptyTables).top_bowlers) = true :=
  ⟨rfl, claim9_economy_guarded
    (okD (preprocess_deliveries delivRunOut) delivRunOut)
    matchesOne "All Teams" "All Seasons" rfl⟩

/-- C10: the `kpis` table is assigned unconditionally (modelled by the
non-optional `Tables.kpis` field), with the fallbacks of lines 156-158:
`total_runs` is 0 without a `total_runs` column, `total_wickets` is 0
without an `is_wicket` column, and `total_matches` is the match-table
row count without a `match_id` column. -/
theorem claim10_kpis_always_present (merged matchesDf : DataFrame)
    (team season : String)
    (h : isOkE (compute_figs_and_tables merged matchesDf team season) = true) :
    (merged.cols.contains "total_runs" = false →
      (okD (compute_figs_and_tables merged matchesDf team season)
        emptyTables).kpis.total_runs = 0) ∧
    (merged.cols.contains "is_wicket" = false →
      (okD (compute_figs_and_tables merged matchesDf team season)
        emptyTables).kpis.total_wickets = 0) ∧
    (matchesDf.cols.contains "match_id" = false →
      (okD (compute_figs_and_tables merged matchesDf team season)
        emptyTables).kpis.total_matches = matchesDf.rows.length) := by
  have hco := okD_spec (compute_figs_and_tables merged matchesDf team season)
    emptyTables h
  obtain ⟨hk, -, -, -, -, -⟩ := compute_ok_parts hco
  obtain ⟨hm, htr, htw⟩ := kpisTable_ok hk
  refine ⟨?_, ?_, ?_⟩
  · intro hc
    unfold sumColOr0 at htr
    rw [if_neg (fun hcc => Bool.false_ne_true (hc ▸ hcc))] at htr
    simp only [Except.ok.injEq] at htr
    exact htr.symm
  · intro hc
    unfold sumColOr0 at htw
    rw [if_neg (fun hcc => Bool.false_ne_true (hc ▸ hcc))] at htw
    simp only [Except.ok.injEq] at htw
    exact htw.symm
  · intro hc
    rw [hm, if_neg (fun hcc => Bool.false_ne_true (hc ▸ hcc))]

/-- Witness for C10 at a concrete pair lacking all three columns. -/
theorem claim10_kpis_always_present_witness :
    isOkE (compute_figs_and_tables emptyDf matchesNoId
      "All Teams" "All Seasons") = true ∧
    (okD (compute_figs_and_tables emptyDf matchesNoId "All Teams" "All Seasons")
      emptyTables).kpis.total_runs = 0 ∧
    (okD (compute_figs_and_tables emptyDf matchesNoId "All Teams" "All Seasons")
      emptyTables).kpis.total_wickets = 0 ∧
    (okD (compute_figs_and_tables emptyDf matchesNoId "All Teams" "All Seasons")
      emptyTables).kpis.total_matches = matchesNoId.rows.length :=
  ⟨rfl,
   (claim10_kpis_always_present emptyDf matchesNoId "All Teams" "All Seasons" rfl).1 rfl,
   (claim10_kpis_always_present emptyDf matchesNoId "All Teams" "All Seasons" rfl).2.1 rfl,
   (claim10_kpis_always_present emptyDf matchesNoId "All Teams" "All Seasons" rfl).2.2 rfl⟩
